import Mathlib

/-!
# Verification of the `pacman-contest-cluster` driver

Shallow embedding of `pacman_contest_cluster.py` (the tournament driver of
AI4EDUC/pacman-contest-cluster): the `load_settings` configuration loader
(CLI defaults, optional JSON config file, resume-folder handling, layered
merge) and the `__main__` block (worker-roster loading, `Host` construction,
and the sequential per-contest loop `run_contest_remotely` / `store_results` /
`add_run` / `clean_up`).

Python dictionaries holding settings are embedded as association lists
(`Settings`) in which a later binding shadows an earlier one, so that
`{**a, **b}` becomes list append.  `sys.exit` and uncaught Python exceptions
become the error side of `Except`.  The file system is a partial map from
path to parsed JSON content.
-/

/-- A JSON-ish settings value as it appears in the settings dictionary:
the values produced by `json.load` plus the Python values the driver itself
stores (`None`, booleans, ints, strings, lists of strings / ints). -/
inductive Val where
  | vStr : String → Val
  | vInt : Int → Val
  | vBool : Bool → Val
  | vStrList : List String → Val
  | vIntList : List Int → Val
  | vNone : Val
  deriving DecidableEq

/-- A Python dict from string keys to settings values, embedded as an
association list where a binding nearer the END of the list shadows an
earlier binding of the same key (so dict merge `{**a, **b}` is `a ++ b`). -/
abbrev Settings : Type := List (String × Val)

/-- Dictionary lookup: the LAST binding of the key wins (later updates and
later operands of `{**a, **b}` shadow earlier ones). -/
def Settings.get : Settings → String → Option Val
  | [], _ => none
  | (q, v) :: rest, k =>
    match Settings.get rest k with
    | some w => some w
    | none => if q = k then some v else none

/-- Dictionary update `d[k] = v`: for lookup purposes, appending a binding at
the end (which shadows any earlier binding) is exactly Python's in-place
key assignment. -/
def Settings.set (s : Settings) (k : String) (v : Val) : Settings :=
  s ++ [(k, v)]

/-- Dictionary deletion `del d[k]`. -/
def Settings.del (s : Settings) (k : String) : Settings :=
  s.filter (fun p => p.1 ≠ k)

/-- `int(s)` for the decimal strings the CLI feeds to `int()`; Python raises
`ValueError` on non-numeric input, which is outside the claims considered
here. -/
def pyNatOfDigits (l : List Char) : Nat :=
  l.foldl (fun acc c => acc * 10 + (c.toNat - 48)) 0

def pyInt (s : String) : Int :=
  match s.data with
  | '-' :: rest => - (pyNatOfDigits rest : Int)
  | l => (pyNatOfDigits l : Int)

/-- Helper for `s.split(",")`. -/
def splitCommaAux : List Char → List Char → List String
  | [], acc => [String.mk acc.reverse]
  | c :: rest, acc =>
    if c = ',' then String.mk acc.reverse :: splitCommaAux rest []
    else splitCommaAux rest (c :: acc)

/-- Python `s.split(",")`. -/
def pySplitComma (s : String) : List String :=
  splitCommaAux s.data []

/-- Python `==` between a JSON-decoded settings value and an `int`
(used by the resume split-mismatch check `args.split != settings_json["split"]`).
A JSON boolean equals the ints 0/1 exactly as in Python; all non-numeric
values compare unequal to every int. -/
def vEqInt : Val → Int → Bool
  | Val.vInt m, n => m == n
  | Val.vBool b, n => (if b then (1 : Int) else 0) == n
  | _, _ => false

/-- Modelled from the spec: the constants the driver imports from the
repository's `config` module, which is not under `src/` — the default layout
counts, step limit, bundled layouts zip, and the canonical per-run config
file name (`DEFAULT_CONFIG_FILE`).  Their concrete values never matter for
the claims, so they are parameters of the model. -/
structure ConfigModule where
  DEFAULT_FIXED_LAYOUTS : Int
  DEFAULT_RANDOM_LAYOUTS : Int
  DEFAULT_MAX_STEPS : Int
  DEFAULT_LAYOUTS_ZIP_FILE : String
  DEFAULT_CONFIG_FILE : String
  deriving DecidableEq

/-- `os.path.join(folder, name)` for a relative `name`. -/
def pathJoin (folder name : String) : String :=
  folder ++ "/" ++ name

/-- The file system as seen through `os.path.exists` / `open` / `json.load`:
a path either holds a parsed JSON object (a settings dict) or is absent. -/
abbrev FileSystem : Type := String → Option Settings

/-- The result of `argparse.parse_args()`: one field per `add_argument` call
of `load_settings`.  `store_true` flags are `Bool`, options without a default
are `Option String`, `--organizer` carries its argparse default
`"Uni Pacman"` when not given, and `--split` is an `int` with argparse
default `0`. -/
structure Args where
  config_file : Option String
  organizer : String
  www_dir : Option String
  stats_archive_dir : Option String
  replays_archive_dir : Option String
  logs_archive_dir : Option String
  compress_logs : Bool
  workers_file : Option String
  teams_root : Option String
  team_names_file : Option String
  staff_teams_dir : Option String
  staff_teams_vs_others_only : Bool
  max_steps : Option String
  no_fixed_layouts : Option String
  fixed_layout_seeds : Option String
  fixed_layouts_file : Option String
  no_random_layouts : Option String
  random_layout_seeds : Option String
  resume_contest_folder : Option String
  allow_non_registered_students : Bool
  build_config_file : Option String
  upload_replays : Bool
  upload_logs : Bool
  upload_all : Bool
  split : Int
  deriving DecidableEq

/-- How the script exits before `load_settings` returns: `sys.exit(0)` when
no CLI arguments are given, `sys.exit(1)` on the explicit error paths, and
uncaught Python exceptions (`KeyError`, I/O or type errors) which also
terminate the process with a nonzero status. -/
inductive LoadError where
  | exit0 : LoadError
  | exit1 : LoadError
  | keyError : String → LoadError
  | pyExc : LoadError
  deriving DecidableEq

/-- Python truthiness of an optional string option: present and non-empty. -/
def optStrVal : Option String → Option String
  | some d => if d = "" then none else some d
  | none => none

/-- `if b: s[k] = v` — a conditionally-taken dict assignment. -/
def setFlag (b : Bool) (s : Settings) (k : String) (v : Val) : Settings :=
  if b then Settings.set s k v else s

/-- `if args.x: settings_cli[k] = args.x` for an optional string option. -/
def setOptStr (s : Settings) (k : String) (o : Option String) : Settings :=
  match optStrVal o with
  | some d => Settings.set s k (Val.vStr d)
  | none => s

/-- `if args.x: settings_cli[k] = int(args.x)`. -/
def setOptInt (s : Settings) (k : String) (o : Option String) : Settings :=
  match optStrVal o with
  | some d => Settings.set s k (Val.vInt (pyInt d))
  | none => s

/-- `if args.x: settings_cli[k] = [y for y in args.x.split(",")]`. -/
def setOptStrList (s : Settings) (k : String) (o : Option String) : Settings :=
  match optStrVal o with
  | some d => Settings.set s k (Val.vStrList (pySplitComma d))
  | none => s

/-- `if args.x: settings_cli[k] = [int(y) for y in args.x.split(",")]`. -/
def setOptIntList (s : Settings) (k : String) (o : Option String) : Settings :=
  match optStrVal o with
  | some d => Settings.set s k (Val.vIntList ((pySplitComma d).map pyInt))
  | none => s

/-- The `if args.staff_teams_dir:` block (source lines 248–250): stores the
directory and switches `include_staff_team` on. -/
def setStaff (s : Settings) (o : Option String) : Settings :=
  match optStrVal o with
  | some d =>
    Settings.set (Settings.set s "staff_teams_dir" (Val.vStr d))
      "include_staff_team" (Val.vBool true)
  | none => s

/-- The `if args.team_names_file:` block (source lines 257–259): stores the
file name and switches `ignore_file_name_format` off. -/
def setTeamNames (s : Settings) (o : Option String) : Settings :=
  match optStrVal o with
  | some d =>
    Settings.set (Settings.set s "team_names_file" (Val.vStr d))
      "ignore_file_name_format" (Val.vBool false)
  | none => s

/-- `settings_default` as assembled in `load_settings` (source lines
177–193): built-in defaults, with four entries seeded directly from the
parsed CLI arguments. -/
def buildDefaults (cfg : ConfigModule) (args : Args) : Settings :=
  [("no_fixed_layouts", Val.vInt cfg.DEFAULT_FIXED_LAYOUTS),
   ("no_random_layouts", Val.vInt cfg.DEFAULT_RANDOM_LAYOUTS),
   ("max_steps", Val.vInt cfg.DEFAULT_MAX_STEPS),
   ("fixed_layouts_file", Val.vStr cfg.DEFAULT_LAYOUTS_ZIP_FILE),
   ("resume_contest_folder", Val.vNone),
   ("include_staff_team", Val.vBool false),
   ("staff_teams_dir", Val.vNone),
   ("staff_teams_vs_others_only", Val.vBool false),
   ("ignore_file_name_format", Val.vBool true),
   ("team_names_file", Val.vNone),
   ("upload_replays", Val.vBool args.upload_replays),
   ("upload_logs", Val.vBool args.upload_logs),
   ("allow_non_registered_students", Val.vBool args.allow_non_registered_students),
   ("split", Val.vInt args.split)]

/-- The initial content of `settings_cli`: `resume_contest_folder` is stored
there first (source line 200) when a resume folder was passed. -/
def cliInit (args : Args) : Settings :=
  match args.resume_contest_folder with
  | some folder => [("resume_contest_folder", Val.vStr folder)]
  | none => []

/-- The CLI-override collection block of `load_settings` (source lines
238–297): every `if args.x: settings_cli[...] = ...` statement, in source
order, applied to the initial `settings_cli`. -/
def buildCli (args : Args) (init : Settings) : Settings :=
  let s := init
  let s := setFlag (args.organizer ≠ "") s "organizer" (Val.vStr args.organizer)
  let s := setOptStr s "www_dir" args.www_dir
  let s := setFlag args.compress_logs s "compress_logs" (Val.vBool args.compress_logs)
  let s := setOptStr s "workers_file" args.workers_file
  let s := setStaff s args.staff_teams_dir
  let s := setFlag args.staff_teams_vs_others_only s "staff_teams_vs_others_only" (Val.vBool true)
  let s := setOptStr s "teams_root" args.teams_root
  let s := setTeamNames s args.team_names_file
  let s := setOptStr s "stats_archive_dir" args.stats_archive_dir
  let s := setOptStr s "replays_archive_dir" args.replays_archive_dir
  let s := setOptStr s "logs_archive_dir" args.logs_archive_dir
  let s := setOptInt s "no_fixed_layouts" args.no_fixed_layouts
  let s := setOptStrList s "fixed_layout_seeds" args.fixed_layout_seeds
  let s := setOptInt s "no_random_layouts" args.no_random_layouts
  let s := setOptIntList s "random_layout_seeds" args.random_layout_seeds
  let s := setOptInt s "max_steps" args.max_steps
  let s :=
    if args.upload_all then
      Settings.set (Settings.set s "upload_replays" (Val.vBool true))
        "upload_logs" (Val.vBool true)
    else
      let s := setFlag args.upload_replays s "upload_replays" (Val.vBool args.upload_replays)
      setFlag args.upload_logs s "upload_logs" (Val.vBool args.upload_logs)
  let s := setFlag args.allow_non_registered_students s "allow_non_registered_students"
    (Val.vBool args.allow_non_registered_students)
  let s := setFlag (args.split ≠ 0) s "split" (Val.vInt args.split)
  s

/-- The config-loading block of `load_settings` (source lines 199–235),
producing `settings_json`:
* with a resume folder: load `<folder>/DEFAULT_CONFIG_FILE` (exit 1 when
  absent), then abort with exit 1 when a nonzero `--split` was given that
  differs from the stored `"split"` (a missing stored `"split"` raises
  `KeyError`);
* otherwise, with `--config-file`: load that file, exit 1 when absent (and
  when both a resume folder and `--config-file` are given, the resume branch
  wins and the explicit file is only warned about, never read);
* otherwise `settings_json` stays empty. -/
def loadJsonBlock (cfg : ConfigModule) (fs : FileSystem) (args : Args) :
    Except LoadError Settings :=
  match args.resume_contest_folder with
  | some folder =>
    match fs (pathJoin folder cfg.DEFAULT_CONFIG_FILE) with
    | none => Except.error LoadError.exit1
    | some sj =>
      if args.split ≠ 0 then
        match Settings.get sj "split" with
        | none => Except.error (LoadError.keyError "split")
        | some v =>
          if vEqInt v args.split then Except.ok sj else Except.error LoadError.exit1
      else Except.ok sj
  | none =>
    match args.config_file with
    | none => Except.ok []
    | some _ =>
      let config_json_file :=
        match args.config_file with
        | some c => c
        | none => cfg.DEFAULT_CONFIG_FILE
      match fs config_json_file with
      | none => Except.error LoadError.exit1
      | some sj => Except.ok sj

/-- `settings.get("split", 0) == 0` (source line 301). -/
def splitIsZero (s : Settings) : Bool :=
  match Settings.get s "split" with
  | none => true
  | some v => vEqInt v 0

/-- The post-merge normalization (source lines 301–302): a merged `"split"`
equal to 0 (or absent) is replaced by 1.  The subsequent
`missing_parameters` check compares against the empty set and can never
fire, and `--build-config-file` only writes a file without changing the
returned settings, so neither affects the result. -/
def postProcess (s : Settings) : Settings :=
  if splitIsZero s then Settings.set s "split" (Val.vInt 1) else s

/-- `load_settings()` (source lines 50–318) as a function of the `config`
module constants, the file system, `len(sys.argv)` and the parsed CLI
arguments; the returned settings dict or the way the process exits. -/
def load_settings (cfg : ConfigModule) (fs : FileSystem) (argc : Nat) (args : Args) :
    Except LoadError Settings :=
  if argc = 1 then Except.error LoadError.exit0
  else
    match loadJsonBlock cfg fs args with
    | Except.error e => Except.error e
    | Except.ok settings_json =>
      Except.ok (postProcess
        (buildDefaults cfg args ++ settings_json ++ buildCli args (cliInit args)))

/-- One entry of the worker roster file's `"workers"` list, with the six
keys the `__main__` block reads (a missing key would raise `KeyError`).
Credential fields may be JSON `null`. -/
structure WorkerDesc where
  no_cpu : Int
  hostname : String
  username : String
  password : Option String
  private_key_file : Option String
  private_key_password : Option String
  deriving DecidableEq

/-- Modelled from the spec: `Host` from the repository's `cluster_manager`
module (not under src/) — per the spec's Worker data model it carries the
host identity, the authentication material (password or private key plus
optional key passphrase) and the declared CPU/slot capacity, exactly the
keyword arguments the `__main__` block passes to its constructor. -/
structure Host where
  no_cpu : Int
  hostname : String
  username : String
  password : Option String
  key_filename : Option String
  key_password : Option String
  deriving DecidableEq

/-- The `hosts = [Host(...) for w in workers_details]` comprehension of the
`__main__` block (source lines 331–341). -/
def mkHosts (workers_details : List WorkerDesc) : List Host :=
  workers_details.map (fun w =>
    { no_cpu := w.no_cpu
      hostname := w.hostname
      username := w.username
      password := w.password
      key_filename := w.private_key_file
      key_password := w.private_key_password })

/-- Modelled from the spec: one contest runner yielded by
`MultiContest.create_contests()` (the `multi_contest` module is not under
src/).  Only its observable interface in the `__main__` loop matters: its
run identity `contest_timestamp_id` and the triple of archive locations
that `store_results` returns per the spec contract
`archive(contest_run) -> (stats_location, replays_location, logs_location)`. -/
structure Runner where
  rid : Nat
  stats_url : String
  replays_url : String
  logs_url : String
  deriving DecidableEq

/-- One observable call made by the `__main__` per-contest loop, in the
order the interpreter reaches it.  `runRemote` records the resume folder and
`first` flag passed to `run_contest_remotely` (the hosts list, also passed,
is loop-invariant); `storeResults` records the triple returned by
`store_results`; `addRun` records the run identity and the triple handed to
`HtmlGenerator.add_run`; `cleanUp` is `runner.clean_up()`. -/
inductive Event where
  | runRemote : Nat → Option String → Bool → Event
  | storeResults : Nat → String → String → String → Event
  | addRun : Nat → String → String → String → Event
  | cleanUp : Nat → Event
  deriving DecidableEq

/-- The trace of the `for runner in multi_contest.create_contests():` loop
(source lines 350–362): each iteration runs the contest remotely, stores the
results, hands the identity plus the three archive locations to the HTML
generator and cleans up, sequentially; `first` is `True` only for the first
iteration. -/
def mainLoopTrace : List Runner → Option String → Bool → List Event
  | [], _, _ => []
  | r :: rs, resume, first =>
    Event.runRemote r.rid resume first ::
    Event.storeResults r.rid r.stats_url r.replays_url r.logs_url ::
    Event.addRun r.rid r.stats_url r.replays_url r.logs_url ::
    Event.cleanUp r.rid ::
    mainLoopTrace rs resume false

/-- `settings["resume_contest_folder"]` as a Python value passed on to
`run_contest_remotely`: a string or `None` (the default). -/
def vToOptStr : Val → Option String
  | Val.vStr s => some s
  | _ => none

/-- The `__main__` block (source lines 324–362): load the settings (any
load-time exit propagates), read the worker roster file (`wof` is the file
system view of `json.load(f)["workers"]`), build the hosts, pull out and
delete `resume_contest_folder`, create the contest runners from the
remaining settings (`rof` models `MultiContest(settings).create_contests()`,
which lives in the `multi_contest` module outside src/) and run the
per-contest loop.  The result is the constructed hosts plus the loop's
event trace. -/
def mainRun (cfg : ConfigModule) (fs : FileSystem) (argc : Nat) (args : Args)
    (wof : String → Option (List WorkerDesc)) (rof : Settings → List Runner) :
    Except LoadError (List Host × List Event) :=
  match load_settings cfg fs argc args with
  | Except.error e => Except.error e
  | Except.ok settings =>
    match Settings.get settings "workers_file" with
    | none => Except.error (LoadError.keyError "workers_file")
    | some wv =>
      match vToOptStr wv with
      | none => Except.error LoadError.pyExc
      | some wf =>
        match wof wf with
        | none => Except.error LoadError.pyExc
        | some workers_details =>
          let hosts := mkHosts workers_details
          match Settings.get settings "resume_contest_folder" with
          | none => Except.error (LoadError.keyError "resume_contest_folder")
          | some rv =>
            let resume := vToOptStr rv
            let settings := Settings.del settings "resume_contest_folder"
            Except.ok (hosts, mainLoopTrace (rof settings) resume true)

/-- `True` exactly when `load_settings` returned a settings dict rather than
exiting. -/
def isOk : Except LoadError Settings → Bool
  | Except.ok _ => true
  | Except.error _ => false

/-- The value of one key of the settings dict a `load_settings` run returned
(`none` when the run exited, or when the key is absent). -/
def getOfResult (e : Except LoadError Settings) (k : String) : Option Val :=
  match e with
  | Except.ok s => Settings.get s k
  | Except.error _ => none

/-- Concrete `config`-module constants used by witnesses and
counterexamples. -/
def cfgW : ConfigModule := ⟨3, 2, 1200, "layouts.zip", "config.json"⟩

/-- A parsed CLI with every option at its argparse default. -/
def argsBase : Args :=
  ⟨none, "Uni Pacman", none, none, none, none, false, none, none, none, none,
   false, none, none, none, none, none, none, none, false, none, false, false,
   false, 0⟩

/-- `--resume-contest-folder prev` and nothing else. -/
def argsResume : Args := { argsBase with resume_contest_folder := some "prev" }

/-- `--resume-contest-folder prev --split 2`. -/
def argsResumeSplit : Args := { argsResume with split := 2 }

/-- Resume plus a team roster and a layout set that DIFFER from the ones the
resume folder's stored configuration records. -/
def argsRosterDiff : Args :=
  { argsResume with
    teams_root := some "new_teams"
    fixed_layout_seeds := some "contest01Capture" }

/-- `--config-file c.json` and nothing else. -/
def argsConf : Args := { argsBase with config_file := some "c.json" }

/-- An empty file system: every open fails. -/
def fsNone : FileSystem := fun _ => none

/-- A file system holding only the resume folder's stored configuration
(split 1, an old team roster, an old layout set). -/
def fsResume : FileSystem := fun p =>
  if p = "prev/config.json" then
    some [("split", Val.vInt 1), ("teams_root", Val.vStr "old_teams"),
          ("fixed_layout_seeds", Val.vStrList ["contest05Capture"])]
  else none

/-- A file system holding only an explicit config file whose `"split"` is 0. -/
def fsConf : FileSystem := fun p =>
  if p = "c.json" then some [("split", Val.vInt 0)] else none

/-- Agrees with `fsResume` on the resume folder's stored configuration and
differs everywhere else. -/
def fsOther : FileSystem := fun p =>
  if p = "prev/config.json" then
    some [("split", Val.vInt 1), ("teams_root", Val.vStr "old_teams"),
          ("fixed_layout_seeds", Val.vStrList ["contest05Capture"])]
  else some [("organizer", Val.vStr "someone else")]

/-- A worker-roster reader that finds no file. -/
def wofNone : String → Option (List WorkerDesc) := fun _ => none

/-- A contest factory producing no contests. -/
def rofNone : Settings → List Runner := fun _ => []

/-- The settings dict `load_settings cfgW fsNone 2 argsBase` returns. -/
def settingsBase : Settings :=
  postProcess (buildDefaults cfgW argsBase ++ [] ++ buildCli argsBase (cliInit argsBase))

/-- The stored configuration inside `fsResume`'s resume folder. -/
def storedResume : Settings :=
  [("split", Val.vInt 1), ("teams_root", Val.vStr "old_teams"),
   ("fixed_layout_seeds", Val.vStrList ["contest05Capture"])]

/-- The settings dict `load_settings cfgW fsResume 2 argsResume` returns. -/
def settingsResume : Settings :=
  postProcess (buildDefaults cfgW argsResume ++ storedResume ++
    buildCli argsResume (cliInit argsResume))

/-- The settings dict `load_settings cfgW fsConf 2 argsConf` returns. -/
def settingsConf : Settings :=
  postProcess (buildDefaults cfgW argsConf ++ [("split", Val.vInt 0)] ++
    buildCli argsConf (cliInit argsConf))

theorem Settings.get_append (a b : Settings) (k : String) :
    Settings.get (a ++ b) k = (Settings.get b k).orElse (fun _ => Settings.get a k) := by
  induction a with
  | nil =>
    simp only [List.nil_append]
    cases Settings.get b k <;> rfl
  | cons p a ih =>
    obtain ⟨q, v⟩ := p
    simp only [List.cons_append, Settings.get, List.append_eq, ih]
    cases Settings.get b k <;> cases Settings.get a k <;> rfl

theorem Settings.get_set (s : Settings) (k : String) (v : Val) (j : String) :
    Settings.get (Settings.set s k v) j = if k = j then some v else Settings.get s j := by
  rw [Settings.set, Settings.get_append]
  by_cases h : k = j <;> simp [Settings.get, h]

theorem get_setFlag_ne (b : Bool) (s : Settings) (k : String) (v : Val) (j : String)
    (h : k ≠ j) : Settings.get (setFlag b s k v) j = Settings.get s j := by
  cases b <;> simp [setFlag, Settings.get_set, h]

theorem get_setOptStr_ne (s : Settings) (k : String) (o : Option String) (j : String)
    (h : k ≠ j) : Settings.get (setOptStr s k o) j = Settings.get s j := by
  rcases o with _ | d
  · rfl
  · by_cases hd : d = "" <;> simp [setOptStr, optStrVal, hd, Settings.get_set, h]

theorem get_setOptInt_ne (s : Settings) (k : String) (o : Option String) (j : String)
    (h : k ≠ j) : Settings.get (setOptInt s k o) j = Settings.get s j := by
  rcases o with _ | d
  · rfl
  · by_cases hd : d = "" <;> simp [setOptInt, optStrVal, hd, Settings.get_set, h]

theorem get_setOptStrList_ne (s : Settings) (k : String) (o : Option String) (j : String)
    (h : k ≠ j) : Settings.get (setOptStrList s k o) j = Settings.get s j := by
  rcases o with _ | d
  · rfl
  · by_cases hd : d = "" <;> simp [setOptStrList, optStrVal, hd, Settings.get_set, h]

theorem get_setOptIntList_ne (s : Settings) (k : String) (o : Option String) (j : String)
    (h : k ≠ j) : Settings.get (setOptIntList s k o) j = Settings.get s j := by
  rcases o with _ | d
  · rfl
  · by_cases hd : d = "" <;> simp [setOptIntList, optStrVal, hd, Settings.get_set, h]

theorem get_setStaff_ne (s : Settings) (o : Option String) (j : String)
    (h1 : "staff_teams_dir" ≠ j) (h2 : "include_staff_team" ≠ j) :
    Settings.get (setStaff s o) j = Settings.get s j := by
  rcases o with _ | d
  · rfl
  · by_cases hd : d = "" <;> simp [setStaff, optStrVal, hd, Settings.get_set, h1, h2]

theorem get_setTeamNames_ne (s : Settings) (o : Option String) (j : String)
    (h1 : "team_names_file" ≠ j) (h2 : "ignore_file_name_format" ≠ j) :
    Settings.get (setTeamNames s o) j = Settings.get s j := by
  rcases o with _ | d
  · rfl
  · by_cases hd : d = "" <;> simp [setTeamNames, optStrVal, hd, Settings.get_set, h1, h2]

theorem setFlag_false (s : Settings) (k : String) (v : Val) : setFlag false s k v = s := rfl

theorem setFlag_true (s : Settings) (k : String) (v : Val) :
    setFlag true s k v = Settings.set s k v := rfl

theorem get_cliInit_ne (args : Args) (j : String) (h : j ≠ "resume_contest_folder") :
    Settings.get (cliInit args) j = none := by
  unfold cliInit
  cases hr : args.resume_contest_folder with
  | none => rfl
  | some f =>
    show Settings.get [("resume_contest_folder", Val.vStr f)] j = none
    simp only [Settings.get]
    rw [if_neg (fun e => h (Eq.symm e))]

/-- Dissecting a successful `load_settings` run: the argument-count guard
passed, the config-loading block succeeded, and the result is the layered
merge (defaults, then config-file values, then CLI overrides) with the
`"split"` normalization applied. -/
theorem load_settings_ok_elim {cfg : ConfigModule} {fs : FileSystem} {argc : Nat}
    {args : Args} {s : Settings}
    (hs : load_settings cfg fs argc args = Except.ok s) :
    argc ≠ 1 ∧ ∃ sj, loadJsonBlock cfg fs args = Except.ok sj ∧
      s = postProcess (buildDefaults cfg args ++ sj ++ buildCli args (cliInit args)) := by
  unfold load_settings at hs
  by_cases h1 : argc = 1
  · rw [if_pos h1] at hs
    exact absurd hs (by simp)
  · rw [if_neg h1] at hs
    cases hjb : loadJsonBlock cfg fs args with
    | error e =>
      rw [hjb] at hs
      exact absurd hs (by simp)
    | ok sj =>
      rw [hjb] at hs
      injection hs with h
      exact ⟨h1, sj, rfl, h.symm⟩

/-- Lookup of a non-`"split"` key in the merged, post-processed settings:
CLI value first, then config-file value, then default. -/
theorem get_postMerge_ne (cfg : ConfigModule) (args : Args) (sj : Settings) (k : String)
    (hk : k ≠ "split") :
    Settings.get (postProcess (buildDefaults cfg args ++ sj ++ buildCli args (cliInit args))) k =
      ((Settings.get (buildCli args (cliInit args)) k).orElse (fun _ =>
        (Settings.get sj k).orElse (fun _ => Settings.get (buildDefaults cfg args) k))) := by
  rw [postProcess]
  by_cases hz : splitIsZero (buildDefaults cfg args ++ sj ++ buildCli args (cliInit args))
  · rw [if_pos hz, Settings.get_set, if_neg (fun e => hk e.symm)]
    simp only [Settings.get_append]
  · rw [if_neg hz]
    simp only [Settings.get_append]

/-- Lookup of `"split"` in the merged, post-processed settings: the layered
value unless it was 0 (or absent), in which case 1. -/
theorem get_postMerge_split (cfg : ConfigModule) (args : Args) (sj : Settings) :
    Settings.get (postProcess (buildDefaults cfg args ++ sj ++ buildCli args (cliInit args)))
        "split" =
      (if splitIsZero (buildDefaults cfg args ++ sj ++ buildCli args (cliInit args))
       then some (Val.vInt 1)
       else ((Settings.get (buildCli args (cliInit args)) "split").orElse (fun _ =>
        (Settings.get sj "split").orElse (fun _ =>
          Settings.get (buildDefaults cfg args) "split")))) := by
  rw [postProcess]
  by_cases hz : splitIsZero (buildDefaults cfg args ++ sj ++ buildCli args (cliInit args))
  · rw [if_pos hz, if_pos hz, Settings.get_set, if_pos rfl]
  · rw [if_neg hz, if_neg hz]
    simp only [Settings.get_append]

/-- What the CLI-collection block records under `"upload_replays"`. -/
theorem buildCli_get_upload_replays (args : Args) (init : Settings) :
    Settings.get (buildCli args init) "upload_replays" =
      (if args.upload_all || args.upload_replays then some (Val.vBool true)
       else Settings.get init "upload_replays") := by
  unfold buildCli
  cases hu : args.upload_all <;> cases hur : args.upload_replays <;>
    simp [get_setFlag_ne, get_setOptStr_ne, get_setOptInt_ne, get_setOptStrList_ne,
      get_setOptIntList_ne, get_setStaff_ne, get_setTeamNames_ne, Settings.get_set,
      setFlag_false, setFlag_true]

/-- What the CLI-collection block records under `"upload_logs"`. -/
theorem buildCli_get_upload_logs (args : Args) (init : Settings) :
    Settings.get (buildCli args init) "upload_logs" =
      (if args.upload_all || args.upload_logs then some (Val.vBool true)
       else Settings.get init "upload_logs") := by
  unfold buildCli
  cases hu : args.upload_all <;> cases hul : args.upload_logs <;>
    simp [get_setFlag_ne, get_setOptStr_ne, get_setOptInt_ne, get_setOptStrList_ne,
      get_setOptIntList_ne, get_setStaff_ne, get_setTeamNames_ne, Settings.get_set,
      setFlag_false, setFlag_true]

/-- C5: in the top-level loop, every `add_run` hand-off for a contest run is
preceded by the return of that run's `store_results` — whose returned triple
of archive locations is exactly what `add_run` receives — and that in turn
is preceded by the return of that run's `run_contest_remotely`. -/
theorem mainLoop_addRun_after_storeResults_after_runRemote
    (runners : List Runner) (resume : Option String) (first : Bool)
    (j : Nat) (rid : Nat) (st rp lg : String)
    (h : (mainLoopTrace runners resume first).get? j = some (Event.addRun rid st rp lg)) :
    ∃ i, i < j ∧
      (mainLoopTrace runners resume first).get? i = some (Event.storeResults rid st rp lg) ∧
      ∃ k, k < i ∧ ∃ b,
        (mainLoopTrace runners resume first).get? k = some (Event.runRemote rid resume b) := by
  induction runners generalizing j first with
  | nil => simp [mainLoopTrace] at h
  | cons r rs ih =>
    rcases j with _ | _ | _ | _ | j
    · simp [mainLoopTrace] at h
    · simp [mainLoopTrace] at h
    · simp only [mainLoopTrace, List.get?] at h
      obtain ⟨h1, h2, h3, h4⟩ := by simpa using h
      subst h1; subst h2; subst h3; subst h4
      exact ⟨1, by omega, rfl, 0, by omega, first, rfl⟩
    · simp [mainLoopTrace] at h
    · have h' : (mainLoopTrace rs resume false).get? j = some (Event.addRun rid st rp lg) := by
        simpa [mainLoopTrace, List.get?] using h
      obtain ⟨i, hij, hi, k, hki, b, hk⟩ := ih false j h'
      exact ⟨i + 4, by omega, by simpa [mainLoopTrace, List.get?] using hi,
        k + 4, by omega, b, by simpa [mainLoopTrace, List.get?] using hk⟩

/-- Witness for C5 at a concrete one-contest loop. -/
theorem mainLoop_addRun_order_witness :
    ∃ i, i < 2 ∧
      (mainLoopTrace [⟨0, "s", "r", "l"⟩] none true).get? i =
        some (Event.storeResults 0 "s" "r" "l") ∧
      ∃ k, k < i ∧ ∃ b,
        (mainLoopTrace [⟨0, "s", "r", "l"⟩] none true).get? k =
          some (Event.runRemote 0 none b) :=
  mainLoop_addRun_after_storeResults_after_runRemote
    [⟨0, "s", "r", "l"⟩] none true 2 0 "s" "r" "l" rfl

/-- C6: in the top-level loop, every `clean_up` of a contest run is preceded
by the return of that run's `store_results`; working state is never destroyed
before the archive step completes. -/
theorem mainLoop_cleanUp_after_storeResults
    (runners : List Runner) (resume : Option String) (first : Bool)
    (j : Nat) (rid : Nat)
    (h : (mainLoopTrace runners resume first).get? j = some (Event.cleanUp rid)) :
    ∃ i, i < j ∧ ∃ st rp lg,
      (mainLoopTrace runners resume first).get? i = some (Event.storeResults rid st rp lg) := by
  induction runners generalizing j first with
  | nil => simp [mainLoopTrace] at h
  | cons r rs ih =>
    rcases j with _ | _ | _ | _ | j
    · simp [mainLoopTrace] at h
    · simp [mainLoopTrace] at h
    · simp [mainLoopTrace] at h
    · simp only [mainLoopTrace, List.get?] at h
      have h1 : r.rid = rid := by simpa using h
      subst h1
      exact ⟨1, by omega, r.stats_url, r.replays_url, r.logs_url, rfl⟩
    · have h' : (mainLoopTrace rs resume false).get? j = some (Event.cleanUp rid) := by
        simpa [mainLoopTrace, List.get?] using h
      obtain ⟨i, hij, st, rp, lg, hi⟩ := ih false j h'
      exact ⟨i + 4, by omega, st, rp, lg, by simpa [mainLoopTrace, List.get?] using hi⟩

/-- Witness for C6 at a concrete one-contest loop. -/
theorem mainLoop_cleanUp_order_witness :
    ∃ i, i < 3 ∧ ∃ st rp lg,
      (mainLoopTrace [⟨0, "s", "r", "l"⟩] none true).get? i =
        some (Event.storeResults 0 st rp lg) :=
  mainLoop_cleanUp_after_storeResults [⟨0, "s", "r", "l"⟩] none true 3 0 rfl

/-- C7: the `__main__` block constructs exactly one `Host` per descriptor of
the worker roster's `"workers"` list, carrying that descriptor's host
identity (hostname, username), its authentication fields (password,
private-key path, key passphrase) and its declared CPU/slot capacity. -/
theorem mkHosts_one_per_descriptor (ws : List WorkerDesc) :
    (mkHosts ws).length = ws.length ∧
    ∀ (i : Nat) (w : WorkerDesc), ws.get? i = some w →
      (mkHosts ws).get? i = some
        { no_cpu := w.no_cpu
          hostname := w.hostname
          username := w.username
          password := w.password
          key_filename := w.private_key_file
          key_password := w.private_key_password } := by
  constructor
  · simp [mkHosts]
  · intro i w hw
    rw [List.get?_eq_getElem?] at hw ⊢
    simp [mkHosts, List.getElem?_map, hw]

/-- Witness for C7 at a concrete one-descriptor roster. -/
theorem mkHosts_one_per_descriptor_witness :
    (mkHosts [⟨4, "h1", "u1", some "pw", none, none⟩]).get? 0 =
      some ⟨4, "h1", "u1", some "pw", none, none⟩ :=
  (mkHosts_one_per_descriptor [⟨4, "h1", "u1", some "pw", none, none⟩]).2 0
    ⟨4, "h1", "u1", some "pw", none, none⟩ rfl

/-- C1 counterexample: the resume folder's stored configuration records a
different team roster (`teams_root`) and a different layout set
(`fixed_layout_seeds`) than the current invocation, yet `load_settings`
does not fail — it returns settings.  No plan parameter other than the
split count is ever compared. -/
theorem resume_roster_layout_mismatch_not_rejected :
    fsResume "prev/config.json" = some storedResume ∧
    argsRosterDiff.teams_root = some "new_teams" ∧
    argsRosterDiff.fixed_layout_seeds = some "contest01Capture" ∧
    Settings.get storedResume "teams_root" = some (Val.vStr "old_teams") ∧
    Settings.get storedResume "fixed_layout_seeds" =
      some (Val.vStrList ["contest05Capture"]) ∧
    isOk (load_settings cfgW fsResume 2 argsRosterDiff) = true :=
  ⟨rfl, rfl, rfl, rfl, rfl, rfl⟩

/-- C1 (amended): when a resume folder is supplied, the only plan parameter
`load_settings` validates against the stored configuration is the split
count: it aborts with exit status 1 exactly when a nonzero `--split` was
passed on the CLI and differs (Python `!=`) from the stored `"split"`;
team roster and layout set are not validated. -/
theorem resume_split_mismatch_aborts
    (cfg : ConfigModule) (fs : FileSystem) (argc : Nat) (args : Args)
    (folder : String) (sj : Settings) (v : Val)
    (ha : argc ≠ 1)
    (hr : args.resume_contest_folder = some folder)
    (hf : fs (pathJoin folder cfg.DEFAULT_CONFIG_FILE) = some sj)
    (hsp : args.split ≠ 0)
    (hv : Settings.get sj "split" = some v)
    (hne : vEqInt v args.split = false) :
    load_settings cfg fs argc args = Except.error LoadError.exit1 := by
  unfold load_settings
  rw [if_neg ha]
  simp [loadJsonBlock, hr, hf, hsp, hv, hne]

/-- Witness for the amended C1: resuming with `--split 2` against a stored
split of 1 aborts. -/
theorem resume_split_mismatch_aborts_witness :
    load_settings cfgW fsResume 2 argsResumeSplit = Except.error LoadError.exit1 :=
  resume_split_mismatch_aborts cfgW fsResume 2 argsResumeSplit "prev" storedResume
    (Val.vInt 1) (by decide) rfl rfl (by decide) rfl rfl

/-- C2 counterexample: the config file supplies `"split" = 0` and the CLI
supplies nothing for that key, yet the returned `"split"` is 1 — not the
config-file value the documented precedence would give. -/
theorem config_split_zero_not_respected :
    loadJsonBlock cfgW fsConf argsConf = Except.ok [("split", Val.vInt 0)] ∧
    Settings.get (buildCli argsConf (cliInit argsConf)) "split" = none ∧
    getOfResult (load_settings cfgW fsConf 2 argsConf) "split" = some (Val.vInt 1) :=
  ⟨rfl, rfl, rfl⟩

/-- C2 (amended): for every key other than `"split"`, the returned value
follows the documented precedence — the CLI-collected override when the
CLI block recorded one, otherwise the config-file value when present,
otherwise the built-in default; for `"split"` the same chain holds except
that a merged value of 0 (or an absent one) is replaced by 1. -/
theorem settings_precedence
    (cfg : ConfigModule) (fs : FileSystem) (argc : Nat) (args : Args)
    (sj s : Settings)
    (hjb : loadJsonBlock cfg fs args = Except.ok sj)
    (hs : load_settings cfg fs argc args = Except.ok s) :
    (∀ k, k ≠ "split" →
      Settings.get s k =
        ((Settings.get (buildCli args (cliInit args)) k).orElse (fun _ =>
          (Settings.get sj k).orElse (fun _ =>
            Settings.get (buildDefaults cfg args) k)))) ∧
    Settings.get s "split" =
      (if splitIsZero (buildDefaults cfg args ++ sj ++ buildCli args (cliInit args))
       then some (Val.vInt 1)
       else ((Settings.get (buildCli args (cliInit args)) "split").orElse (fun _ =>
        (Settings.get sj "split").orElse (fun _ =>
          Settings.get (buildDefaults cfg args) "split")))) := by
  obtain ⟨-, sj2, hjb2, rfl⟩ := load_settings_ok_elim hs
  rw [hjb] at hjb2
  injection hjb2 with e
  subst e
  exact ⟨fun k hk => get_postMerge_ne cfg args sj k hk, get_postMerge_split cfg args sj⟩

/-- Witness for the amended C2 at the `"organizer"` key of a concrete run. -/
theorem settings_precedence_witness :
    Settings.get settingsConf "organizer" =
      ((Settings.get (buildCli argsConf (cliInit argsConf)) "organizer").orElse (fun _ =>
        (Settings.get [("split", Val.vInt 0)] "organizer").orElse (fun _ =>
          Settings.get (buildDefaults cfgW argsConf) "organizer"))) :=
  (settings_precedence cfgW fsConf 2 argsConf [("split", Val.vInt 0)] settingsConf
    rfl rfl).1 "organizer" (by decide)

/-- C3: a load-time configuration error — the specified config file does not
exist, or the resume folder lacks its stored config file — makes
`load_settings` exit with status 1 before returning, so the `__main__`
block constructs no worker host and dispatches no match: `mainRun`
propagates the same exit for every roster reader and contest factory. -/
theorem config_error_stops_process
    (cfg : ConfigModule) (fs : FileSystem) (argc : Nat) (args : Args)
    (ha : argc ≠ 1)
    (h : (∃ folder, args.resume_contest_folder = some folder ∧
            fs (pathJoin folder cfg.DEFAULT_CONFIG_FILE) = none) ∨
         (args.resume_contest_folder = none ∧
           ∃ cf, args.config_file = some cf ∧ fs cf = none)) :
    load_settings cfg fs argc args = Except.error LoadError.exit1 ∧
    ∀ (wof : String → Option (List WorkerDesc)) (rof : Settings → List Runner),
      mainRun cfg fs argc args wof rof = Except.error LoadError.exit1 := by
  have hl : load_settings cfg fs argc args = Except.error LoadError.exit1 := by
    unfold load_settings
    rw [if_neg ha]
    rcases h with ⟨folder, hr, hf⟩ | ⟨hr, cf, hc, hf⟩
    · simp [loadJsonBlock, hr, hf]
    · simp [loadJsonBlock, hr, hc, hf]
  refine ⟨hl, fun wof rof => ?_⟩
  unfold mainRun
  rw [hl]

/-- Witness for C3: a resume folder whose stored config file is absent. -/
theorem config_error_stops_process_witness :
    load_settings cfgW fsNone 2 argsResume = Except.error LoadError.exit1 ∧
    mainRun cfgW fsNone 2 argsResume wofNone rofNone = Except.error LoadError.exit1 :=
  ⟨(config_error_stops_process cfgW fsNone 2 argsResume (by decide)
      (Or.inl ⟨"prev", rfl, rfl⟩)).1,
   (config_error_stops_process cfgW fsNone 2 argsResume (by decide)
      (Or.inl ⟨"prev", rfl, rfl⟩)).2 wofNone rofNone⟩

/-- C4: with a resume folder, the folder's stored config file is what is
loaded as the run's config layer — any settings the run returns are the
defaults, then the stored configuration, then the CLI overrides — and
`load_settings` exits with status 1 when that stored file is absent. -/
theorem resume_loads_stored_config
    (cfg : ConfigModule) (fs : FileSystem) (argc : Nat) (args : Args) (folder : String)
    (ha : argc ≠ 1)
    (hr : args.resume_contest_folder = some folder) :
    (fs (pathJoin folder cfg.DEFAULT_CONFIG_FILE) = none →
      load_settings cfg fs argc args = Except.error LoadError.exit1) ∧
    (∀ sj s, fs (pathJoin folder cfg.DEFAULT_CONFIG_FILE) = some sj →
      load_settings cfg fs argc args = Except.ok s →
      s = postProcess (buildDefaults cfg args ++ sj ++
            buildCli args (cliInit args))) := by
  constructor
  · intro hf
    unfold load_settings
    rw [if_neg ha]
    simp [loadJsonBlock, hr, hf]
  · intro sj s hf hs
    obtain ⟨-, sj2, hjb, rfl⟩ := load_settings_ok_elim hs
    simp only [loadJsonBlock, hr, hf] at hjb
    by_cases hsp : args.split = 0
    · simp [hsp] at hjb
      subst hjb
      rfl
    · simp only [hsp, ne_eq, not_false_eq_true, if_true] at hjb
      cases hv : Settings.get sj "split" with
      | none =>
        simp only [hv] at hjb
        exact absurd hjb (by simp)
      | some v =>
        simp only [hv] at hjb
        by_cases he : vEqInt v args.split = true
        · rw [if_pos he] at hjb
          injection hjb with e
          subst e
          rfl
        · rw [if_neg he] at hjb
          exact absurd hjb (by simp)

/-- Witness for C4: resuming against `fsResume` returns exactly the layered
merge over the stored configuration. -/
theorem resume_loads_stored_config_witness :
    settingsResume = postProcess (buildDefaults cfgW argsResume ++ storedResume ++
      buildCli argsResume (cliInit argsResume)) :=
  (resume_loads_stored_config cfgW fsResume 2 argsResume "prev" (by decide) rfl).2
    storedResume settingsResume rfl rfl

/-- C8: when both a resume folder and an explicit `--config-file` are
supplied, the explicit config file is ignored entirely: the returned
settings are unchanged under any change of the `--config-file` value and
any change of the file system away from the resume folder's stored config
path, so the explicit file's contents never influence the result. -/
theorem resume_overrides_config_file
    (cfg : ConfigModule) (fs1 fs2 : FileSystem) (argc : Nat) (args : Args)
    (folder : String) (c1 c2 : Option String)
    (hr : args.resume_contest_folder = some folder)
    (hfs : fs1 (pathJoin folder cfg.DEFAULT_CONFIG_FILE) =
           fs2 (pathJoin folder cfg.DEFAULT_CONFIG_FILE)) :
    load_settings cfg fs1 argc { args with config_file := c1 } =
    load_settings cfg fs2 argc { args with config_file := c2 } := by
  have hj : loadJsonBlock cfg fs1 { args with config_file := c1 } =
            loadJsonBlock cfg fs2 { args with config_file := c2 } := by
    simp only [loadJsonBlock, hr]
    rw [hfs]
  unfold load_settings
  rw [hj]
  rfl

/-- Witness for C8: two file systems agreeing only on the resume folder's
stored config, two different `--config-file` values, same result. -/
theorem resume_overrides_config_file_witness :
    load_settings cfgW fsResume 2 { argsResume with config_file := some "other.json" } =
    load_settings cfgW fsOther 2 { argsResume with config_file := none } :=
  resume_overrides_config_file cfgW fsResume fsOther 2 argsResume "prev"
    (some "other.json") none rfl rfl

/-- C9: `load_settings` never returns a settings dict whose `"split"` is 0:
whenever the merged split is 0 (the CLI default when `--split` is absent)
or missing, the returned value is 1, and any other returned split differs
from 0. -/
theorem split_never_zero
    (cfg : ConfigModule) (fs : FileSystem) (argc : Nat) (args : Args) (s : Settings)
    (hs : load_settings cfg fs argc args = Except.ok s) :
    Settings.get s "split" ≠ some (Val.vInt 0) ∧
    ∀ sj, loadJsonBlock cfg fs args = Except.ok sj →
      splitIsZero (buildDefaults cfg args ++ sj ++ buildCli args (cliInit args)) = true →
      Settings.get s "split" = some (Val.vInt 1) := by
  obtain ⟨-, sj, hjb, rfl⟩ := load_settings_ok_elim hs
  constructor
  · rw [postProcess]
    by_cases hz : splitIsZero (buildDefaults cfg args ++ sj ++ buildCli args (cliInit args))
    · rw [if_pos hz, Settings.get_set, if_pos rfl]
      simp
    · rw [if_neg hz]
      intro hc
      exact hz (by simp only [splitIsZero, hc]; decide)
  · intro sj2 hjb2 hz
    rw [hjb] at hjb2
    injection hjb2 with e
    subst e
    rw [postProcess, if_pos hz, Settings.get_set, if_pos rfl]

/-- Witness for C9: a run with no split option returns a nonzero split. -/
theorem split_never_zero_witness :
    Settings.get settingsBase "split" ≠ some (Val.vInt 0) :=
  (split_never_zero cfgW fsNone 2 argsBase settingsBase rfl).1

/-- C10: `--upload-all` forces both `upload_replays` and `upload_logs` to
`true` in the returned settings, overriding any config-file values; without
it, each flag is forced `true` exactly when its own CLI option is passed,
and otherwise falls back to the config-file value or, failing that, the
default `false`. -/
theorem upload_all_overrides
    (cfg : ConfigModule) (fs : FileSystem) (argc : Nat) (args : Args)
    (sj s : Settings)
    (hjb : loadJsonBlock cfg fs args = Except.ok sj)
    (hs : load_settings cfg fs argc args = Except.ok s) :
    Settings.get s "upload_replays" =
      (if args.upload_all || args.upload_replays then some (Val.vBool true)
       else ((Settings.get sj "upload_replays").orElse (fun _ =>
        some (Val.vBool false)))) ∧
    Settings.get s "upload_logs" =
      (if args.upload_all || args.upload_logs then some (Val.vBool true)
       else ((Settings.get sj "upload_logs").orElse (fun _ =>
        some (Val.vBool false)))) := by
  obtain ⟨-, sj2, hjb2, rfl⟩ := load_settings_ok_elim hs
  rw [hjb] at hjb2
  injection hjb2 with e
  subst e
  constructor
  · rw [get_postMerge_ne cfg args sj "upload_replays" (by decide),
      buildCli_get_upload_replays, get_cliInit_ne args "upload_replays" (by decide)]
    cases hu : args.upload_all <;> cases hur : args.upload_replays <;>
      simp [hu, hur, buildDefaults, Settings.get, Option.orElse]
  · rw [get_postMerge_ne cfg args sj "upload_logs" (by decide),
      buildCli_get_upload_logs, get_cliInit_ne args "upload_logs" (by decide)]
    cases hu : args.upload_all <;> cases hul : args.upload_logs <;>
      simp [hu, hul, buildDefaults, Settings.get, Option.orElse]

/-- Witness for C10 at a concrete run with neither upload option. -/
theorem upload_all_overrides_witness :
    Settings.get settingsBase "upload_replays" =
      (if argsBase.upload_all || argsBase.upload_replays then some (Val.vBool true)
       else ((Settings.get ([] : Settings) "upload_replays").orElse (fun _ =>
        some (Val.vBool false)))) :=
  (upload_all_overrides cfgW fsNone 2 argsBase [] settingsBase rfl rfl).1
